import Mathlib

/-!
Shallow embedding of the ws_raw WebSocket connection registry
(src/include/ws_raw/ws_raw.c).

Modelling conventions:
- a byte is a `Nat`, a C byte buffer is a `List Nat`;
- a C pointer that may be NULL is an `Option`; a client pointer's identity
  (the address of its allocation, used by the C code for `==`/`!=`
  comparisons) is an abstract `Nat` stored in the `ptr` field;
- `malloc`/`calloc` success is an explicit oracle argument (`allocOk`,
  or `alloc : Nat → Bool` indexed by loop position for the broadcast
  loops); the bytes of a fresh `malloc` region before the payload offset
  are uninitialized in C and never read, modelled as `0`;
- a payload pointer plus its length argument is modelled as
  `Option (List Nat)`: `none` is a NULL data pointer, and the C `len`
  argument is the list's length;
- the mutex only serializes the operations; each operation is modelled
  as a pure state transformer.
-/

namespace WsRaw

/-- Front padding required by libwebsockets before the payload region
(the `LWS_PRE` constant of libwebsockets); 16 bytes on the 64-bit target
platform. -/
def LWS_PRE : Nat := 16

/-- Static TX buffer size (`STATIC_BUFFER_SIZE` in ws_raw.c). -/
def STATIC_BUFFER_SIZE : Nat := 4096

/-- Default maximum clients (`MAX_CLIENTS_DEFAULT` in ws_raw.c). -/
def MAX_CLIENTS_DEFAULT : Nat := 100

/-- Server configuration `ws_raw_cfg_t`.  The callback function pointers
are modelled by whether they are non-NULL. -/
structure ws_raw_cfg where
  port : Int
  on_rx_set : Bool
  on_connect_set : Bool
  on_disconnect_set : Bool
  max_clients : Int

/-- Connected client, `struct ws_raw_client`.  The `next` pointer is
subsumed in the registry's list; `ptr` models the identity of the C
allocation (the pointer value compared with `==`/`!=` by the code). -/
structure ws_raw_client where
  ptr : Nat
  wsi : Nat
  id : String
  connect_time : Nat
  user_data : Option Nat
  tx_buf_static : List Nat
  tx_buf_dynamic : Option (List Nat)
  tx_len : Nat
  tx_pending : Bool
  using_static : Bool

/-- Server context, `struct ws_raw_ctx`.  `id_ctr` models the
function-static counter inside `generate_client_id` (process-global; it
coincides with per-context state because the API keeps one global
context). -/
structure ws_raw_ctx where
  clients : List ws_raw_client
  cfg : ws_raw_cfg
  client_counter : Nat
  running : Bool
  id_ctr : Nat

/-- The effect of `memcpy(buf + off, src, src.length)` on a buffer. -/
def memcpy_at (buf : List Nat) (off : Nat) (src : List Nat) : List Nat :=
  buf.take off ++ src ++ buf.drop (off + src.length)

/-- Zero-padding of a number to at least four digits, the `%04d`
conversion used for the counter part of a client id. -/
def pad4 (n : Nat) : String :=
  let s := toString n
  String.mk (List.replicate (4 - s.length) '0') ++ s

/-- The `generate_client_id` format `client-TIMESTAMP-COUNTER`. -/
def generate_client_id (now : Nat) (counter : Nat) : String :=
  "client-" ++ toString now ++ "-" ++ pad4 counter

/-- The `add_client` internal operation: counts the current list, rejects
when `max_clients > 0 && count >= max_clients`, otherwise `calloc`s a new
client (success given by `allocOk`), fills its fields and inserts it at
the head of the list. -/
def add_client (ctx : ws_raw_ctx) (wsi now newPtr : Nat) (allocOk : Bool) :
    ws_raw_ctx × Option ws_raw_client :=
  if 0 < ctx.cfg.max_clients ∧ ctx.cfg.max_clients ≤ (ctx.clients.length : Int) then
    (ctx, none)
  else if allocOk then
    let client : ws_raw_client :=
      { ptr := newPtr
        wsi := wsi
        id := generate_client_id now ctx.id_ctr
        connect_time := now
        user_data := none
        tx_buf_static := List.replicate STATIC_BUFFER_SIZE 0
        tx_buf_dynamic := none
        tx_len := 0
        tx_pending := false
        using_static := true }
    ({ ctx with
        clients := client :: ctx.clients
        client_counter := ctx.client_counter + 1
        id_ctr := ctx.id_ctr + 1 }, some client)
  else (ctx, none)

/-- Loop body of `remove_client`: walks the list, unlinks the first node
whose address equals `p`, frees its dynamic buffer if non-NULL and fires
the disconnect hook if configured; `break`s after the first match.
Returns the new list, whether the disconnect hook fired, and whether a
dynamic buffer was freed. -/
def remove_client_go (on_disc : Bool) (p : Nat) :
    List ws_raw_client → List ws_raw_client × Bool × Bool
  | [] => ([], false, false)
  | c :: rest =>
    if c.ptr = p then (rest, on_disc, c.tx_buf_dynamic.isSome)
    else
      let r := remove_client_go on_disc p rest
      (c :: r.1, r.2.1, r.2.2)

/-- The `remove_client` internal operation. -/
def remove_client (ctx : ws_raw_ctx) (p : Nat) : ws_raw_ctx × Bool × Bool :=
  let r := remove_client_go ctx.cfg.on_disconnect_set p ctx.clients
  ({ ctx with clients := r.1 }, r.2.1, r.2.2)

/-- Configuration processing done by `ws_raw_init`: the configuration is
copied and `max_clients <= 0` is replaced by `MAX_CLIENTS_DEFAULT`. -/
def init_cfg (cfg : ws_raw_cfg) : ws_raw_cfg :=
  if cfg.max_clients ≤ 0 then
    { cfg with max_clients := (MAX_CLIENTS_DEFAULT : Int) }
  else cfg

/-- The registry state established by `ws_raw_init` (the libwebsockets /
libuv plumbing is outside the model). -/
def ws_raw_init (cfg : ws_raw_cfg) : ws_raw_ctx :=
  { clients := []
    cfg := init_cfg cfg
    client_counter := 0
    running := true
    id_ctr := 0 }

/-- The `ws_raw_send_to` operation on the targeted client record.  The C
function takes the client by pointer and touches only that client's
fields; NULL data and a zero length return `-1`, a pending transmission
returns `-1`, payloads of at most `STATIC_BUFFER_SIZE - LWS_PRE` bytes
are copied into the static buffer at offset `LWS_PRE`, larger payloads
`malloc` `LWS_PRE + len` bytes (success given by `allocOk`). -/
def ws_raw_send_to (client : ws_raw_client) (data : Option (List Nat))
    (allocOk : Bool) : ws_raw_client × Int :=
  match data with
  | none => (client, -1)
  | some d =>
    if d.length = 0 then (client, -1)
    else if client.tx_pending then (client, -1)
    else if d.length ≤ STATIC_BUFFER_SIZE - LWS_PRE then
      ({ client with
          using_static := true
          tx_buf_static := memcpy_at client.tx_buf_static LWS_PRE d
          tx_len := d.length
          tx_pending := true }, 0)
    else if allocOk then
      ({ client with
          using_static := false
          tx_buf_dynamic := some (List.replicate LWS_PRE 0 ++ d)
          tx_len := d.length
          tx_pending := true }, 0)
    else
      ({ client with using_static := false, tx_buf_dynamic := none }, -1)

/-- Whether the loop guard `client != exclude_client` fails, i.e. the
client is the excluded one.  A NULL `exclude_client` matches no client. -/
def is_excluded (excl : Option Nat) (c : ws_raw_client) : Bool :=
  match excl with
  | some p => c.ptr == p
  | none => false

/-- Per-client body shared by the two broadcast loops: skip a busy
client; copy into the static buffer when the payload fits; otherwise,
only when `tx_buf_dynamic` is NULL, try to `malloc` a dynamic buffer and
schedule on success.  Returns the updated client and whether a send was
scheduled (payload buffered, `tx_pending` set, writable armed). -/
def broadcast_step (data : List Nat) (allocOk : Bool) (c : ws_raw_client) :
    ws_raw_client × Bool :=
  if c.tx_pending then (c, false)
  else if data.length ≤ STATIC_BUFFER_SIZE - LWS_PRE then
    ({ c with
        using_static := true
        tx_buf_static := memcpy_at c.tx_buf_static LWS_PRE data
        tx_len := data.length
        tx_pending := true }, true)
  else if c.tx_buf_dynamic = none then
    if allocOk then
      ({ c with
          using_static := false
          tx_buf_dynamic := some (List.replicate LWS_PRE 0 ++ data)
          tx_len := data.length
          tx_pending := true }, true)
    else ({ c with using_static := false }, false)
  else (c, false)

/-- The broadcast loop: applies `broadcast_step` to every client whose
address differs from the excluded one, counting the scheduled sends; the
allocation oracle is indexed by the loop position. -/
def broadcast_go (excl : Option Nat) (data : List Nat) (alloc : Nat → Bool) :
    List ws_raw_client → Nat → List ws_raw_client × Nat
  | [], _ => ([], 0)
  | c :: rest, i =>
    let s := if is_excluded excl c then (c, false) else broadcast_step data (alloc i) c
    let r := broadcast_go excl data alloc rest (i + 1)
    (s.1 :: r.1, (if s.2 then 1 else 0) + r.2)

/-- The `ws_raw_broadcast` operation: returns 0 for NULL context, NULL
data or zero length, and also returns 0 after iterating all clients (the
scheduled count computed by the loop in the model is discarded, exactly
as the C function returns the constant 0). -/
def ws_raw_broadcast (ctx : Option ws_raw_ctx) (data : Option (List Nat))
    (alloc : Nat → Bool) : Option ws_raw_ctx × Int :=
  match ctx, data with
  | none, _ => (none, 0)
  | some c, none => (some c, 0)
  | some c, some d =>
    if d.length = 0 then (some c, 0)
    else
      let r := broadcast_go none d alloc c.clients 0
      (some { c with clients := r.1 }, 0)

/-- The `ws_raw_broadcast_except` operation: `-1` for NULL context, NULL
data or zero length, otherwise the number of scheduled sends. -/
def ws_raw_broadcast_except (ctx : Option ws_raw_ctx) (excl : Option Nat)
    (data : Option (List Nat)) (alloc : Nat → Bool) : Option ws_raw_ctx × Int :=
  match ctx, data with
  | none, _ => (none, -1)
  | some c, none => (some c, -1)
  | some c, some d =>
    if d.length = 0 then (some c, -1)
    else
      let r := broadcast_go excl d alloc c.clients 0
      (some { c with clients := r.1 }, (r.2 : Int))

/-- The `ws_raw_client_count` operation: 0 for a NULL context, otherwise
the length of the client list (the C loop counts the nodes). -/
def ws_raw_client_count (ctx : Option ws_raw_ctx) : Int :=
  match ctx with
  | none => 0
  | some c => (c.clients.length : Int)

/-- The payload slice `buf + LWS_PRE .. buf + LWS_PRE + tx_len` that the
`LWS_CALLBACK_SERVER_WRITEABLE` case of `cb_ws` hands to `lws_write`. -/
def buffered_payload (c : ws_raw_client) : List Nat :=
  (((if c.using_static then c.tx_buf_static else c.tx_buf_dynamic.getD []).drop
      LWS_PRE).take c.tx_len)

/-- The `LWS_CALLBACK_SERVER_WRITEABLE` case of `cb_ws`: when a
transmission is pending, hand the buffered payload to `lws_write`, free
the dynamic buffer when that storage was used, and clear `tx_pending`;
otherwise do nothing.  Returns the updated client and the bytes written
(if any). -/
def cb_ws_writable (c : ws_raw_client) : ws_raw_client × Option (List Nat) :=
  if c.tx_pending then
    let written := buffered_payload c
    if c.using_static then
      ({ c with tx_pending := false }, some written)
    else
      ({ c with tx_buf_dynamic := none, tx_pending := false }, some written)
  else (c, none)

/-- The `ws_raw_send` operation: `-1` for a NULL context or an empty
client list, otherwise `ws_raw_send_to` applied to the head of the client
list. -/
def ws_raw_send (ctx : Option ws_raw_ctx) (data : Option (List Nat))
    (allocOk : Bool) : Option ws_raw_ctx × Int :=
  match ctx with
  | none => (none, -1)
  | some c =>
    match c.clients with
    | [] => (some c, -1)
    | cl :: rest =>
      let r := ws_raw_send_to cl data allocOk
      (some { c with clients := r.1 :: rest }, r.2)

/-- Iterated registration: `register_n ctx n` performs `n` successful
`calloc`s worth of `add_client` calls with distinct connection handles
and addresses. -/
def register_n (ctx : ws_raw_ctx) : Nat → ws_raw_ctx
  | 0 => ctx
  | n + 1 => (add_client (register_n ctx n) n n n true).1

/-- A sample configuration used for concrete instances. -/
def demo_cfg : ws_raw_cfg :=
  { port := 9000
    on_rx_set := true
    on_connect_set := false
    on_disconnect_set := false
    max_clients := 100 }

/-- A freshly registered client at address `p`, as `add_client` builds
it. -/
def demo_client (p : Nat) : ws_raw_client :=
  { ptr := p
    wsi := p
    id := generate_client_id 0 p
    connect_time := 0
    user_data := none
    tx_buf_static := List.replicate STATIC_BUFFER_SIZE 0
    tx_buf_dynamic := none
    tx_len := 0
    tx_pending := false
    using_static := true }

/-- A registry holding `n` fresh clients at addresses `0 .. n-1`. -/
def demo_ctx (n : Nat) : ws_raw_ctx :=
  { clients := (List.range n).map demo_client
    cfg := demo_cfg
    client_counter := n
    running := true
    id_ctr := n }

/-! ### Helper lemmas about the buffer operations -/

lemma memcpy_read (buf src : List Nat) (h : LWS_PRE ≤ buf.length) :
    ((memcpy_at buf LWS_PRE src).drop LWS_PRE).take src.length = src := by
  have h16 : (buf.take LWS_PRE).length = LWS_PRE := by
    simp [List.length_take, Nat.min_eq_left h]
  rw [memcpy_at, List.append_assoc, List.drop_left' h16, List.take_left]

lemma send_to_busy (c : ws_raw_client) (d : Option (List Nat)) (a : Bool)
    (h : c.tx_pending = true) : ws_raw_send_to c d a = (c, -1) := by
  cases d with
  | none => rfl
  | some d => simp [ws_raw_send_to, h]

lemma send_to_static (c : ws_raw_client) (d : List Nat) (a : Bool)
    (hp : c.tx_pending = false) (hne : d.length ≠ 0)
    (hlen : d.length ≤ STATIC_BUFFER_SIZE - LWS_PRE) :
    ws_raw_send_to c (some d) a =
      ({ c with
          using_static := true
          tx_buf_static := memcpy_at c.tx_buf_static LWS_PRE d
          tx_len := d.length
          tx_pending := true }, 0) := by
  simp [ws_raw_send_to, hp, hne, hlen]

lemma send_to_dynamic (c : ws_raw_client) (d : List Nat)
    (hp : c.tx_pending = false) (hlen : STATIC_BUFFER_SIZE - LWS_PRE < d.length) :
    ws_raw_send_to c (some d) true =
      ({ c with
          using_static := false
          tx_buf_dynamic := some (List.replicate LWS_PRE 0 ++ d)
          tx_len := d.length
          tx_pending := true }, 0) := by
  have hne : d.length ≠ 0 := by omega
  have hnle : ¬ d.length ≤ STATIC_BUFFER_SIZE - LWS_PRE := Nat.not_le.mpr hlen
  simp [ws_raw_send_to, hp, hne, hnle]

lemma send_to_alloc_fail (c : ws_raw_client) (d : List Nat)
    (hp : c.tx_pending = false) (hlen : STATIC_BUFFER_SIZE - LWS_PRE < d.length) :
    ws_raw_send_to c (some d) false =
      ({ c with using_static := false, tx_buf_dynamic := none }, -1) := by
  have hne : d.length ≠ 0 := by omega
  have hnle : ¬ d.length ≤ STATIC_BUFFER_SIZE - LWS_PRE := Nat.not_le.mpr hlen
  simp [ws_raw_send_to, hp, hne, hnle]

lemma buffered_payload_static (c : ws_raw_client) (d : List Nat)
    (hbuf : LWS_PRE ≤ c.tx_buf_static.length) :
    buffered_payload
      { c with
          using_static := true
          tx_buf_static := memcpy_at c.tx_buf_static LWS_PRE d
          tx_len := d.length
          tx_pending := true } = d := by
  simp [buffered_payload, memcpy_read _ _ hbuf]

lemma buffered_payload_dynamic (c : ws_raw_client) (d : List Nat) :
    buffered_payload
      { c with
          using_static := false
          tx_buf_dynamic := some (List.replicate LWS_PRE 0 ++ d)
          tx_len := d.length
          tx_pending := true } = d := by
  have h16 : (List.replicate LWS_PRE (0 : Nat)).length = LWS_PRE := by simp
  simp [buffered_payload, List.drop_left' h16, List.take_length]

lemma cb_ws_writable_writes (c : ws_raw_client) (h : c.tx_pending = true) :
    (cb_ws_writable c).2 = some (buffered_payload c) := by
  by_cases hs : c.using_static <;> simp [cb_ws_writable, h, hs]

lemma cb_ws_writable_clears (c : ws_raw_client) :
    (cb_ws_writable c).1.tx_pending = false := by
  cases hp : c.tx_pending <;> by_cases hs : c.using_static <;>
    simp [cb_ws_writable, hp, hs]

lemma send_to_ready_succeeds (c : ws_raw_client) (p : List Nat) (a : Bool)
    (hp : c.tx_pending = false) (hne : p.length ≠ 0)
    (ha : p.length ≤ STATIC_BUFFER_SIZE - LWS_PRE ∨ a = true) :
    (ws_raw_send_to c (some p) a).2 = 0 := by
  rcases ha with h | h
  · rw [send_to_static c p a hp hne h]
  · subst h
    by_cases hs : p.length ≤ STATIC_BUFFER_SIZE - LWS_PRE
    · rw [send_to_static c p true hp hne hs]
    · rw [send_to_dynamic c p hp (Nat.lt_of_not_le hs)]

/-! ### Claim theorems -/

/-- C3 (corrected), counterexample to the claim as stated: on the
heap-backed path with a failed allocation, `ws_raw_send_to` does change a
field of the client record — the buffer-selection tag `using_static`,
which is set to dynamic (`false`) before the `malloc` is attempted and is
not restored on failure.  A fresh client has `using_static = true`; after
the failing call it is `false`, although the call returned the failure
result. -/
theorem alloc_failure_changes_tag_cex :
    (demo_client 0).using_static = true ∧
    (ws_raw_send_to (demo_client 0) (some (List.replicate 4081 7)) false).2 = -1 ∧
    (ws_raw_send_to (demo_client 0) (some (List.replicate 4081 7)) false).1.using_static
      = false := by
  have hlen : STATIC_BUFFER_SIZE - LWS_PRE < (List.replicate 4081 (7 : Nat)).length := by
    rw [List.length_replicate]; decide
  refine ⟨rfl, ?_, ?_⟩ <;> rw [send_to_alloc_fail (demo_client 0) _ rfl hlen]

/-- C3 (amended): when `ws_raw_send_to` takes the heap-backed path and
the allocation fails, it returns the failure result `-1`, `tx_pending`
keeps its prior value `false`, and the static buffer, `tx_len`, identity
and application fields are unchanged; however the buffer-selection tag
`using_static` is set to `false` and `tx_buf_dynamic` to NULL. -/
theorem alloc_failure_frame (c : ws_raw_client) (d : List Nat)
    (hp : c.tx_pending = false) (hlen : STATIC_BUFFER_SIZE - LWS_PRE < d.length) :
    ws_raw_send_to c (some d) false =
      ({ c with using_static := false, tx_buf_dynamic := none }, -1) :=
  send_to_alloc_fail c d hp hlen

/-- Witness for C3's amended theorem at a concrete client and payload. -/
theorem alloc_failure_frame_witness :
    (demo_client 0).tx_pending = false ∧
    ws_raw_send_to (demo_client 0) (some (List.replicate 4081 7)) false =
      ({ demo_client 0 with using_static := false, tx_buf_dynamic := none }, -1) :=
  ⟨rfl, alloc_failure_frame (demo_client 0) _ rfl (by rw [List.length_replicate]; decide)⟩

/-- C4 (confirmed): a successful `ws_raw_send_to` with payload `p1`
followed by a second call before the writable callback makes the second
call return the busy error `-1` with the client state unchanged; the
buffered content and recorded length after the rejected call are still
those established by `p1`. -/
theorem enqueue_busy_second_call_rejected (c : ws_raw_client) (p1 : List Nat)
    (d2 : Option (List Nat)) (a1 a2 : Bool)
    (hp : c.tx_pending = false) (hne : p1.length ≠ 0)
    (ha : p1.length ≤ STATIC_BUFFER_SIZE - LWS_PRE ∨ a1 = true)
    (hbuf : LWS_PRE ≤ c.tx_buf_static.length) :
    (ws_raw_send_to c (some p1) a1).2 = 0 ∧
    ws_raw_send_to (ws_raw_send_to c (some p1) a1).1 d2 a2 =
      ((ws_raw_send_to c (some p1) a1).1, -1) ∧
    buffered_payload (ws_raw_send_to c (some p1) a1).1 = p1 ∧
    (ws_raw_send_to c (some p1) a1).1.tx_len = p1.length := by
  rcases ha with hsmall | hA
  · rw [send_to_static c p1 a1 hp hne hsmall]
    exact ⟨rfl, send_to_busy _ d2 a2 rfl, buffered_payload_static c p1 hbuf, rfl⟩
  · subst hA
    by_cases hsmall : p1.length ≤ STATIC_BUFFER_SIZE - LWS_PRE
    · rw [send_to_static c p1 true hp hne hsmall]
      exact ⟨rfl, send_to_busy _ d2 a2 rfl, buffered_payload_static c p1 hbuf, rfl⟩
    · rw [send_to_dynamic c p1 hp (Nat.lt_of_not_le hsmall)]
      exact ⟨rfl, send_to_busy _ d2 a2 rfl, buffered_payload_dynamic c p1, rfl⟩

/-- Witness for C4's theorem at a concrete client and payloads. -/
theorem enqueue_busy_second_call_rejected_witness :
    (demo_client 0).tx_pending = false ∧
    ws_raw_send_to (ws_raw_send_to (demo_client 0) (some [1, 2]) true).1 (some [3]) true =
      ((ws_raw_send_to (demo_client 0) (some [1, 2]) true).1, -1) :=
  ⟨rfl,
    (enqueue_busy_second_call_rejected (demo_client 0) [1, 2] (some [3]) true true rfl
      (by simp) (Or.inr rfl)
      (by simp only [demo_client, List.length_replicate]; decide)).2.1⟩

/-- C5 (confirmed): for an accepted payload `p`, the inline buffer is
used iff `p.length ≤ STATIC_BUFFER_SIZE - LWS_PRE` (then nothing is
allocated), otherwise exactly `LWS_PRE + p.length` bytes are
heap-allocated; in both branches the bytes later handed to the transport
by the writable callback are byte-identical to `p` and the recorded
length is `p.length`. -/
theorem enqueue_buffer_strategy (c : ws_raw_client) (p : List Nat) (a : Bool)
    (hp : c.tx_pending = false) (hne : p.length ≠ 0)
    (hbuf : LWS_PRE ≤ c.tx_buf_static.length) :
    (p.length ≤ STATIC_BUFFER_SIZE - LWS_PRE →
      (ws_raw_send_to c (some p) a).2 = 0 ∧
      (ws_raw_send_to c (some p) a).1.using_static = true ∧
      (ws_raw_send_to c (some p) a).1.tx_buf_dynamic = c.tx_buf_dynamic ∧
      (ws_raw_send_to c (some p) a).1.tx_len = p.length ∧
      (cb_ws_writable (ws_raw_send_to c (some p) a).1).2 = some p) ∧
    (STATIC_BUFFER_SIZE - LWS_PRE < p.length →
      (ws_raw_send_to c (some p) true).2 = 0 ∧
      (ws_raw_send_to c (some p) true).1.using_static = false ∧
      (∃ buf, (ws_raw_send_to c (some p) true).1.tx_buf_dynamic = some buf ∧
        buf.length = LWS_PRE + p.length) ∧
      (ws_raw_send_to c (some p) true).1.tx_len = p.length ∧
      (cb_ws_writable (ws_raw_send_to c (some p) true).1).2 = some p) := by
  constructor
  · intro hsmall
    rw [send_to_static c p a hp hne hsmall]
    refine ⟨rfl, rfl, rfl, rfl, ?_⟩
    rw [cb_ws_writable_writes _ rfl, buffered_payload_static c p hbuf]
  · intro hbig
    rw [send_to_dynamic c p hp hbig]
    refine ⟨rfl, rfl, ⟨_, rfl, by simp⟩, rfl, ?_⟩
    rw [cb_ws_writable_writes _ rfl, buffered_payload_dynamic c p]

/-- Witness for C5's theorem at a concrete client and payload. -/
theorem enqueue_buffer_strategy_witness :
    (demo_client 0).tx_pending = false ∧
    (cb_ws_writable (ws_raw_send_to (demo_client 0) (some [9]) true).1).2 = some [9] :=
  ⟨rfl,
    ((enqueue_buffer_strategy (demo_client 0) [9] true rfl (by simp)
      (by simp only [demo_client, List.length_replicate]; decide)).1
      (by decide)).2.2.2.2⟩

/-- C6 (confirmed): after the writable callback runs to completion
`tx_pending` is false and a subsequent valid `ws_raw_send_to` on that
client succeeds with `0`; invoked while `tx_pending` is false the
writable callback is a no-op that changes no client state and writes
nothing. -/
theorem on_writable_clears_and_unblocks (c : ws_raw_client) (p : List Nat) (a : Bool)
    (hne : p.length ≠ 0)
    (ha : p.length ≤ STATIC_BUFFER_SIZE - LWS_PRE ∨ a = true) :
    (cb_ws_writable c).1.tx_pending = false ∧
    (ws_raw_send_to (cb_ws_writable c).1 (some p) a).2 = 0 ∧
    (c.tx_pending = false → cb_ws_writable c = (c, none)) := by
  refine ⟨cb_ws_writable_clears c, ?_, fun hc => by simp [cb_ws_writable, hc]⟩
  exact send_to_ready_succeeds _ p a (cb_ws_writable_clears c) hne ha

/-- Witness for C6's theorem: a client with a pending static-buffer
transmission is flushed and can immediately enqueue again. -/
theorem on_writable_clears_and_unblocks_witness :
    ([4] : List Nat).length ≠ 0 ∧
    (ws_raw_send_to
      (cb_ws_writable (ws_raw_send_to (demo_client 0) (some [1, 2]) true).1).1
      (some [4]) true).2 = 0 :=
  ⟨by simp,
    (on_writable_clears_and_unblocks (ws_raw_send_to (demo_client 0) (some [1, 2]) true).1
      [4] true (by simp) (Or.inr rfl)).2.1⟩

lemma add_client_at_capacity (ctx : ws_raw_ctx) (wsi now p : Nat) (a : Bool)
    (hmax : 0 < ctx.cfg.max_clients)
    (hge : ctx.cfg.max_clients ≤ (ctx.clients.length : Int)) :
    add_client ctx wsi now p a = (ctx, none) := by
  simp [add_client, hmax, hge]

/-- C7 (confirmed): with a positive configured capacity, once the live
client count equals `max_clients` the next `add_client` call returns the
rejection (`none`, no client created, context unchanged) and the client
count is unchanged by that call. -/
theorem register_rejected_at_capacity (ctx : ws_raw_ctx) (wsi now p : Nat) (a : Bool)
    (hmax : 0 < ctx.cfg.max_clients)
    (hfull : (ctx.clients.length : Int) = ctx.cfg.max_clients) :
    add_client ctx wsi now p a = (ctx, none) ∧
    ws_raw_client_count (some (add_client ctx wsi now p a).1) =
      ws_raw_client_count (some ctx) := by
  have h := add_client_at_capacity ctx wsi now p a hmax (le_of_eq hfull.symm)
  exact ⟨h, by rw [h]⟩

/-- A registry configured for one client and already holding one. -/
def demo_ctx_full : ws_raw_ctx :=
  { demo_ctx 1 with cfg := { demo_cfg with max_clients := 1 } }

/-- Witness for C7's theorem at a registry at capacity. -/
theorem register_rejected_at_capacity_witness :
    (0 : Int) < demo_ctx_full.cfg.max_clients ∧
    add_client demo_ctx_full 5 5 5 true = (demo_ctx_full, none) :=
  ⟨by decide,
    (register_rejected_at_capacity demo_ctx_full 5 5 5 true (by decide) (by decide)).1⟩

lemma add_client_cfg (ctx : ws_raw_ctx) (w n p : Nat) (a : Bool) :
    (add_client ctx w n p a).1.cfg = ctx.cfg := by
  unfold add_client
  split
  · rfl
  · split <;> rfl

lemma register_n_cfg (ctx : ws_raw_ctx) (n : Nat) :
    (register_n ctx n).cfg = ctx.cfg := by
  induction n with
  | zero => rfl
  | succ n ih => rw [register_n, add_client_cfg, ih]

lemma add_client_succeeds (ctx : ws_raw_ctx) (w now p : Nat)
    (h : ¬(0 < ctx.cfg.max_clients ∧ ctx.cfg.max_clients ≤ (ctx.clients.length : Int))) :
    (add_client ctx w now p true).1.clients.length = ctx.clients.length + 1 := by
  simp [add_client, h]

/-- A configuration requesting an unbounded registry (`max_clients = 0`). -/
def cfg_zero : ws_raw_cfg := { demo_cfg with max_clients := 0 }

lemma register_n_length (n : Nat) (hn : n ≤ MAX_CLIENTS_DEFAULT) :
    (register_n (ws_raw_init cfg_zero) n).clients.length = n := by
  induction n with
  | zero => rfl
  | succ n ih =>
    have hn' : n ≤ MAX_CLIENTS_DEFAULT := Nat.le_of_succ_le hn
    have hlen := ih hn'
    have hcfg : (register_n (ws_raw_init cfg_zero) n).cfg.max_clients = 100 := by
      rw [register_n_cfg]; decide
    have hcond : ¬(0 < (register_n (ws_raw_init cfg_zero) n).cfg.max_clients ∧
        (register_n (ws_raw_init cfg_zero) n).cfg.max_clients ≤
          ((register_n (ws_raw_init cfg_zero) n).clients.length : Int)) := by
      rw [hcfg, hlen]
      rintro ⟨-, h2⟩
      have hn100 : n < 100 := by
        have := hn
        simp [MAX_CLIENTS_DEFAULT] at this
        omega
      exact absurd h2 (by exact_mod_cast Nat.not_le.mpr hn100)
    rw [register_n, add_client_succeeds _ _ _ _ hcond, hlen]

/-- C2 (code bug): configuring `max_clients = 0` does not yield an
unbounded registry.  `ws_raw_init` replaces a non-positive `max_clients`
with `MAX_CLIENTS_DEFAULT = 100`, so after 100 successful registrations
under a configuration with `max_clients = 0` the next `add_client` call
is rejected for capacity, although the public header documents `0` as
unlimited. -/
theorem max_clients_zero_is_capped :
    (register_n (ws_raw_init cfg_zero) MAX_CLIENTS_DEFAULT).clients.length =
      MAX_CLIENTS_DEFAULT ∧
    (add_client (register_n (ws_raw_init cfg_zero) MAX_CLIENTS_DEFAULT)
      100 100 100 true).2 = none := by
  have hlen := register_n_length MAX_CLIENTS_DEFAULT le_rfl
  refine ⟨hlen, ?_⟩
  have hcfg : (register_n (ws_raw_init cfg_zero) MAX_CLIENTS_DEFAULT).cfg.max_clients
      = 100 := by
    rw [register_n_cfg]; decide
  have h := add_client_at_capacity
    (register_n (ws_raw_init cfg_zero) MAX_CLIENTS_DEFAULT) 100 100 100 true
    (by rw [hcfg]; decide) (by rw [hcfg, hlen]; decide)
  rw [h]

/-- C1 (code bug): `ws_raw_broadcast` does not return the number of
scheduled sends.  On a registry with one idle registered client and the
valid two-byte payload `[1, 2]`, the broadcast loop schedules exactly one
send, yet the function returns the constant `0`, contradicting the public
header's documented return value. -/
theorem broadcast_returns_zero_not_count :
    (ws_raw_broadcast (some (demo_ctx 1)) (some [1, 2]) (fun _ => true)).2 = 0 ∧
    (broadcast_go none [1, 2] (fun _ => true) (demo_ctx 1).clients 0).2 = 1 := by
  exact ⟨rfl, rfl⟩

lemma broadcast_step_schedules (d : List Nat) (a : Bool) (c : ws_raw_client)
    (hp : c.tx_pending = false) (hd : c.tx_buf_dynamic = none)
    (ha : d.length ≤ STATIC_BUFFER_SIZE - LWS_PRE ∨ a = true) :
    (broadcast_step d a c).2 = true ∧ (broadcast_step d a c).1.tx_pending = true ∧
    (broadcast_step d a c).1.ptr = c.ptr := by
  rcases ha with h | h
  · simp [broadcast_step, hp, h]
  · by_cases hs : d.length ≤ STATIC_BUFFER_SIZE - LWS_PRE
    · simp [broadcast_step, hp, hs]
    · subst h
      simp [broadcast_step, hp, hs, hd]

lemma broadcast_go_spec (x : Nat) (d : List Nat) (alloc : Nat → Bool)
    (hok : d.length ≤ STATIC_BUFFER_SIZE - LWS_PRE ∨ ∀ j, alloc j = true) :
    ∀ (l : List ws_raw_client) (i : Nat),
      (∀ c ∈ l, c.tx_pending = false ∧ c.tx_buf_dynamic = none) →
      (broadcast_go (some x) d alloc l i).2 =
        l.length - l.countP (fun c => c.ptr == x) ∧
      ∀ c' ∈ (broadcast_go (some x) d alloc l i).1,
        c'.ptr ≠ x → c'.tx_pending = true := by
  intro l
  induction l with
  | nil =>
    intro i _
    simp [broadcast_go]
  | cons c rest ih =>
    intro i hgood
    have hc := hgood c (List.mem_cons_self _ _)
    have hrest : ∀ c0 ∈ rest, c0.tx_pending = false ∧ c0.tx_buf_dynamic = none :=
      fun c0 h0 => hgood c0 (List.mem_cons_of_mem _ h0)
    have hih := ih (i + 1) hrest
    have hcntle := List.countP_le_length (fun c0 => c0.ptr == x) (l := rest)
    cases hx : (c.ptr == x) with
    | true =>
      have hxe : c.ptr = x := eq_of_beq hx
      have hexcl : is_excluded (some x) c = true := by simp [is_excluded, hx]
      constructor
      · simp only [broadcast_go, hexcl, if_true]
        rw [hih.1, List.countP_cons_of_pos _ _ (by simpa using hx), List.length_cons,
          if_neg (by simp)]
        omega
      · intro c' hmem hne
        simp only [broadcast_go, hexcl, if_true] at hmem
        rcases List.mem_cons.mp hmem with hce | hmem
        · exact absurd (hce ▸ hxe) hne
        · exact hih.2 c' hmem hne
    | false =>
      have hexcl : is_excluded (some x) c = false := by simp [is_excluded, hx]
      have hstep := broadcast_step_schedules d (alloc i) c hc.1 hc.2
        (hok.imp id (fun h => h i))
      constructor
      · simp only [broadcast_go, hexcl, if_false, Bool.false_eq_true]
        rw [hih.1, hstep.1, List.countP_cons_of_neg _ _ (by simp [hx]), List.length_cons,
          if_pos rfl]
        omega
      · intro c' hmem hne
        simp only [broadcast_go, hexcl, if_false, Bool.false_eq_true] at hmem
        rcases List.mem_cons.mp hmem with hce | hmem
        · rw [hce]; exact hstep.2.1
        · exact hih.2 c' hmem hne

/-- C8 (confirmed): `ws_raw_broadcast_except` on a registry whose clients
are all idle returns `K - 1` when the excluded address occurs once among
the `K` clients, returns `K` when the excluded address is not registered,
schedules a send for every client other than the excluded one, returns a
non-negative count for every valid argument triple, and returns the `-1`
sentinel for a NULL context, NULL payload or zero length. -/
theorem broadcast_except_spec (ctx : ws_raw_ctx) (x : Nat) (p : List Nat)
    (alloc : Nat → Bool) (hne : p.length ≠ 0)
    (hgood : ∀ c ∈ ctx.clients, c.tx_pending = false ∧ c.tx_buf_dynamic = none)
    (hok : p.length ≤ STATIC_BUFFER_SIZE - LWS_PRE ∨ ∀ j, alloc j = true) :
    (ctx.clients.countP (fun c => c.ptr == x) = 1 →
      (ws_raw_broadcast_except (some ctx) (some x) (some p) alloc).2 =
        (ctx.clients.length : Int) - 1) ∧
    ((∀ c ∈ ctx.clients, c.ptr ≠ x) →
      (ws_raw_broadcast_except (some ctx) (some x) (some p) alloc).2 =
        (ctx.clients.length : Int)) ∧
    (∀ c' ∈ (broadcast_go (some x) p alloc ctx.clients 0).1,
      c'.ptr ≠ x → c'.tx_pending = true) ∧
    0 ≤ (ws_raw_broadcast_except (some ctx) (some x) (some p) alloc).2 ∧
    (∀ (ctx0 : Option ws_raw_ctx) (e : Option Nat) (al : Nat → Bool),
      (ws_raw_broadcast_except ctx0 e none al).2 = -1 ∧
      (ws_raw_broadcast_except ctx0 e (some []) al).2 = -1 ∧
      (ws_raw_broadcast_except none e (some p) al).2 = -1) := by
  have hspec := broadcast_go_spec x p alloc hok ctx.clients 0 hgood
  have hval : (ws_raw_broadcast_except (some ctx) (some x) (some p) alloc).2 =
      ((broadcast_go (some x) p alloc ctx.clients 0).2 : Int) := by
    simp [ws_raw_broadcast_except, hne]
  have hcntle := List.countP_le_length (fun c0 => c0.ptr == x) (l := ctx.clients)
  refine ⟨?_, ?_, hspec.2, ?_, ?_⟩
  · intro hcnt
    rw [hval, hspec.1, hcnt]
    have h1 : 1 ≤ ctx.clients.length := le_trans (le_of_eq hcnt.symm) hcntle
    omega
  · intro hnot
    have hcnt : ctx.clients.countP (fun c => c.ptr == x) = 0 :=
      List.countP_eq_zero.mpr (fun c hc => by simpa using hnot c hc)
    rw [hval, hspec.1, hcnt]
    omega
  · rw [hval]
    exact Int.natCast_nonneg _
  · intro ctx0 e al
    refine ⟨?_, ?_, rfl⟩ <;> cases ctx0 <;> simp [ws_raw_broadcast_except]

/-- Witness for C8's theorem: two idle clients at addresses 0 and 1,
excluding address 0, schedules one send. -/
theorem broadcast_except_spec_witness :
    (∀ c ∈ (demo_ctx 2).clients, c.tx_pending = false ∧ c.tx_buf_dynamic = none) ∧
    (ws_raw_broadcast_except (some (demo_ctx 2)) (some 0) (some [5])
      (fun _ => true)).2 = ((demo_ctx 2).clients.length : Int) - 1 :=
  ⟨by decide,
    (broadcast_except_spec (demo_ctx 2) 0 [5] (fun _ => true) (by simp)
      (by decide) (Or.inl (by decide))).1 (by decide)⟩

lemma remove_client_go_absent (od : Bool) (p : Nat) :
    ∀ l : List ws_raw_client, (∀ c ∈ l, c.ptr ≠ p) →
      remove_client_go od p l = (l, false, false) := by
  intro l
  induction l with
  | nil => intro _; rfl
  | cons c rest ih =>
    intro h
    have hc : c.ptr ≠ p := h c (List.mem_cons_self _ _)
    have hrest := ih (fun c0 h0 => h c0 (List.mem_cons_of_mem _ h0))
    simp [remove_client_go, hc, hrest]

lemma remove_client_go_removes (od : Bool) (p : Nat) :
    ∀ l : List ws_raw_client, l.countP (fun c => c.ptr == p) ≤ 1 →
      ∀ c' ∈ (remove_client_go od p l).1, c'.ptr ≠ p := by
  intro l
  induction l with
  | nil =>
    intro _ c' hc'
    simp [remove_client_go] at hc'
  | cons c rest ih =>
    intro hcnt c' hc'
    by_cases hc : c.ptr = p
    · rw [List.countP_cons_of_pos _ _ (by simp [hc])] at hcnt
      have h0 : rest.countP (fun c0 => c0.ptr == p) = 0 := by omega
      have habs := List.countP_eq_zero.mp h0
      simp only [remove_client_go, if_pos hc] at hc'
      intro he
      exact habs c' hc' (by simp [he])
    · simp only [remove_client_go, if_neg hc] at hc'
      rcases List.mem_cons.mp hc' with hce | hmem
      · rw [hce]; exact hc
      · rw [List.countP_cons_of_neg _ _ (by simp [hc])] at hcnt
        exact ih hcnt c' hmem

lemma remove_client_absent (ctx : ws_raw_ctx) (p : Nat)
    (h : ∀ c ∈ ctx.clients, c.ptr ≠ p) :
    remove_client ctx p = (ctx, false, false) := by
  simp [remove_client, remove_client_go_absent _ p ctx.clients h]

/-- C9 (confirmed): `remove_client` is idempotent.  Under the pointer
uniqueness the allocator guarantees (an address occurs at most once in
the registry), after one `remove_client` the address is no longer
registered, and a second `remove_client` of the same address returns
normally, leaves the registry unchanged, does not fire the disconnect
hook, and does not free a dynamic buffer again. -/
theorem unregister_idempotent (ctx : ws_raw_ctx) (p : Nat)
    (huniq : ctx.clients.countP (fun c => c.ptr == p) ≤ 1) :
    (∀ c' ∈ (remove_client ctx p).1.clients, c'.ptr ≠ p) ∧
    remove_client (remove_client ctx p).1 p =
      ((remove_client ctx p).1, false, false) := by
  have habs : ∀ c' ∈ (remove_client ctx p).1.clients, c'.ptr ≠ p := by
    have h := remove_client_go_removes ctx.cfg.on_disconnect_set p ctx.clients huniq
    simpa [remove_client] using h
  exact ⟨habs, remove_client_absent _ p habs⟩

/-- Witness for C9's theorem: removing address 1 twice from a two-client
registry; the second call is a no-op with no hook and no free. -/
theorem unregister_idempotent_witness :
    (demo_ctx 2).clients.countP (fun c => c.ptr == 1) ≤ 1 ∧
    remove_client (remove_client (demo_ctx 2) 1).1 1 =
      ((remove_client (demo_ctx 2) 1).1, false, false) :=
  ⟨by decide, (unregister_idempotent (demo_ctx 2) 1 (by decide)).2⟩

/-- C10 (confirmed): `ws_raw_send` returns `-1` (context unchanged) when
no clients are registered; otherwise it behaves exactly as
`ws_raw_send_to` applied to the head of the client list — and, because
`add_client` inserts at the head, a freshly registered client is that
head, i.e. `ws_raw_send` targets the most recently registered client. -/
theorem send_targets_most_recent (ctx : ws_raw_ctx) (d : Option (List Nat)) (a : Bool) :
    (ctx.clients = [] → ws_raw_send (some ctx) d a = (some ctx, -1)) ∧
    (∀ c rest, ctx.clients = c :: rest →
      ws_raw_send (some ctx) d a =
        (some { ctx with clients := (ws_raw_send_to c d a).1 :: rest },
          (ws_raw_send_to c d a).2)) ∧
    (∀ wsi now q ctx1 cl, add_client ctx wsi now q true = (ctx1, some cl) →
      ctx1.clients.head? = some cl) := by
  refine ⟨?_, ?_, ?_⟩
  · intro h
    simp [ws_raw_send, h]
  · intro c rest h
    simp [ws_raw_send, h]
  · intro wsi now q ctx1 cl h
    unfold add_client at h
    split at h
    · exact absurd (congrArg Prod.snd h) (by simp)
    · rw [if_pos rfl] at h
      simp only [Prod.mk.injEq, Option.some.injEq] at h
      obtain ⟨h1, h2⟩ := h
      subst h1
      subst h2
      rfl

/-- Witness for C10's theorem: on a freshly initialized (empty) registry,
`ws_raw_send` returns `-1`. -/
theorem send_targets_most_recent_witness :
    (ws_raw_init demo_cfg).clients = [] ∧
    ws_raw_send (some (ws_raw_init demo_cfg)) (some [1]) true =
      (some (ws_raw_init demo_cfg), -1) :=
  ⟨rfl, (send_targets_most_recent (ws_raw_init demo_cfg) (some [1]) true).1 rfl⟩

end WsRaw
